import Mathlib

/-!
# Meeting control page (`static/js/app.js`)

A shallow embedding of the browser-side controller in `static/js/app.js`.

The page is a record of the places the script writes to: the module variable
`isRecording`, the `disabled` property of the two buttons, the text and class
of the status indicator, the children of the transcript container, and the
`innerHTML` and `style.display` of the summary container.  Each callback the
script registers (two click listeners, the continuations of the two `fetch`
chains, three socket listeners) is a function on that record.  The browser's
event loop is the environment: it picks which callback runs next, so a run of
the page is a fold of `step` over a list of events.

A callback can raise: a property read on `null` or `undefined`, or the
conversion to text of an object that has a `toString` member.  A callback
that raises keeps what it has written so far, and in a `fetch` chain the
`.catch` handler then runs on that page.

Not modelled: `console.log` / `console.error` output and the scroll position
of the transcript container (`scrollTop = scrollHeight` is a layout quantity).
-/

namespace MeetingAssistant

/-! ## JavaScript values -/

/-- A JavaScript number, seen through the two conversions the script applies
to a value: the text `ToString` gives for it, and whether `ToBoolean` gives
true for it (it does not for `0`, `-0` and `NaN`). -/
structure JSNum where
  text : String
  nonzero : Bool
  deriving DecidableEq, Repr

/-- A JavaScript value as it reaches the callbacks: the result of
`response.json()` or a socket payload, together with `undefined`, which a
property read produces.  An object lists its members in the order of the
parsed text. -/
inductive JSVal where
  | undefined : JSVal
  | null : JSVal
  | bool (b : Bool) : JSVal
  | num (x : JSNum) : JSVal
  | str (s : String) : JSVal
  | arr (items : List JSVal) : JSVal
  | obj (fields : List (String × JSVal)) : JSVal

/-- The exception a callback can raise on these values. -/
inductive JSError where
  | typeError : JSError
  deriving DecidableEq, Repr

/-- The own property `key` of an object with the members `fields`: as in
`JSON.parse`, a later member replaces an earlier one with the same key. -/
def ownProp (fields : List (String × JSVal)) (key : String) : Option JSVal :=
  fields.reverse.lookup key

/-- Whether an object with the members `fields` has an own property `key`. -/
def hasOwn (fields : List (String × JSVal)) (key : String) : Bool :=
  fields.any (fun p => p.1 == key)

/-- Property read `v.key` for the keys the script reads (`status`, `message`,
`summary`, `timestamp`, `speaker`, `text`), none of which is defined on a
built-in prototype: an object yields its own property or `undefined`, any
other non-nullish value yields `undefined`, and `null` / `undefined` raise. -/
def JSVal.getProp (v : JSVal) (key : String) : Except JSError JSVal :=
  match v with
  | .undefined => .error .typeError
  | .null => .error .typeError
  | .obj fields =>
    match ownProp fields key with
    | some x => .ok x
    | none => .ok .undefined
  | _ => .ok .undefined

mutual
/-- The `ToString` conversion performed by a template literal `${v}`.  An
object without a `toString` member inherits the one of `Object.prototype`;
an object with such a member has a value there that cannot be called, and
neither it nor `valueOf` yields a primitive, so the conversion raises.  An
array is joined. -/
def JSVal.toStr : JSVal → Except JSError String
  | .undefined => .ok "undefined"
  | .null => .ok "null"
  | .bool true => .ok "true"
  | .bool false => .ok "false"
  | .num x => .ok x.text
  | .str s => .ok s
  | .arr items => JSVal.joinItems items
  | .obj fields =>
    if hasOwn fields "toString" then .error .typeError else .ok "[object Object]"
/-- The body of `Array.prototype.join` with the default separator, the
elements converted from left to right. -/
def JSVal.joinItems : List JSVal → Except JSError String
  | [] => .ok ""
  | [x] => JSVal.itemStr x
  | x :: y :: rest =>
    match JSVal.itemStr x with
    | .error e => .error e
    | .ok a =>
      match JSVal.joinItems (y :: rest) with
      | .error e => .error e
      | .ok b => .ok (a ++ "," ++ b)
/-- One element of a joined array: nullish elements give the empty string,
any other element its `ToString`. -/
def JSVal.itemStr : JSVal → Except JSError String
  | .undefined => .ok ""
  | .null => .ok ""
  | .bool true => .ok "true"
  | .bool false => .ok "false"
  | .num x => .ok x.text
  | .str s => .ok s
  | .arr items => JSVal.joinItems items
  | .obj fields =>
    if hasOwn fields "toString" then .error .typeError else .ok "[object Object]"
end

/-- The `ToBoolean` conversion performed by `if (v)`. -/
def JSVal.truthy : JSVal → Bool
  | .undefined => false
  | .null => false
  | .bool b => b
  | .num x => x.nonzero
  | .str s => s != ""
  | .arr _ => true
  | .obj _ => true

/-- Strict equality `v === 'lit'` against a string literal. -/
def JSVal.strictEqStr : JSVal → String → Bool
  | .str s, lit => s == lit
  | _, _ => false

/-- The conversion applied by the `textContent` setter: `null` and
`undefined` become the empty string, anything else goes through `ToString`. -/
def JSVal.toTextContent : JSVal → Except JSError String
  | .undefined => .ok ""
  | .null => .ok ""
  | v => v.toStr

/-! ## The page -/

/-- A `span` created by `addTranscriptEntry`. -/
structure Span where
  className : String
  textContent : String
  deriving DecidableEq, Repr

/-- A `div.transcript-entry` with its child spans in document order. -/
structure TranscriptEntry where
  className : String
  children : List Span
  deriving DecidableEq, Repr

/-- The `textContent` getter of an entry: the concatenation of the text of
its children in document order. -/
def TranscriptEntry.textContent (e : TranscriptEntry) : String :=
  String.join (e.children.map Span.textContent)

/-- An outbound `fetch` call: the resource and the fields of its options. -/
structure Request where
  url : String
  method : String
  headers : List (String × String)
  deriving DecidableEq, Repr

/-- Everything the script reads or writes. -/
structure State where
  /-- The module variable `isRecording`. -/
  isRecording : Bool
  /-- The property `startButton.disabled`. -/
  startDisabled : Bool
  /-- The property `endButton.disabled`. -/
  endDisabled : Bool
  /-- The property `statusIndicator.textContent`. -/
  statusText : String
  /-- The property `statusIndicator.className`. -/
  statusClass : String
  /-- The children of `transcriptContainer`, in document order. -/
  transcript : List TranscriptEntry
  /-- The property `summaryContainer.innerHTML`, as last assigned. -/
  summaryHTML : String
  /-- The property `summaryContainer.style.display`. -/
  summaryDisplay : String
  deriving DecidableEq, Repr

/-- The events the event loop delivers to the script. -/
inductive Event where
  /-- A click on `#start-meeting`. -/
  | startClick : Event
  /-- A click on `#end-meeting`. -/
  | endClick : Event
  /-- The body of the `/start_meeting` response parsed to `data`. -/
  | startResponse (data : JSVal) : Event
  /-- The body of the `/end_meeting` response parsed to `data`. -/
  | endResponse (data : JSVal) : Event
  /-- The `/start_meeting` fetch, or the parsing of its body, rejected. -/
  | startFailure : Event
  /-- The `/end_meeting` fetch, or the parsing of its body, rejected. -/
  | endFailure : Event
  /-- The socket event `connect`. -/
  | connect : Event
  /-- The socket event `disconnect`. -/
  | disconnect : Event
  /-- The socket event `transcript_update` with its payload. -/
  | transcriptUpdate (data : JSVal) : Event


/-! ## The functions of `app.js` -/

/-- The outcome of a continuation of a `fetch` chain: it returned, or it
raised, in both cases with the page as the continuation left it. -/
inductive Outcome where
  | returned (page : State) : Outcome
  | raised (e : JSError) (page : State) : Outcome

/-- The function `updateStatus(message, type)`, lines 115-118. -/
def updateStatus (message type : String) (s : State) : State :=
  { s with statusText := message, statusClass := "status " ++ type }

/-- The function `displaySummary(summary)`, lines 120-126.  The template
literal is evaluated before the assignment to `innerHTML`, so a summary whose
conversion raises leaves the page as it was. -/
def displaySummary (summary : JSVal) (s : State) : Except JSError State :=
  match summary.toStr with
  | .error e => .error e
  | .ok text =>
    .ok { s with
      summaryHTML :=
        "\n        <h3>Meeting Summary</h3>\n        <div class=\"summary-content\">"
          ++ text ++ "</div>\n    ",
      summaryDisplay := "block" }

/-- The function `addTranscriptEntry(data)`, lines 91-113.  Every step that
can raise (the property reads and the conversions of lines 97, 101 and 105)
comes before the entry is attached to the document at line 111, so an
exception leaves the page as it was. -/
def addTranscriptEntry (data : JSVal) (s : State) : Except JSError State := do
  let ts ← data.getProp "timestamp"
  let tsText ← ts.toStr
  let timestamp : Span := { className := "timestamp", textContent := "[" ++ tsText ++ "] " }
  let sp ← data.getProp "speaker"
  let spText ← sp.toStr
  let speaker : Span := { className := "speaker", textContent := spText ++ ": " }
  let tx ← data.getProp "text"
  let txText ← tx.toTextContent
  let text : Span := { className := "text", textContent := txText }
  let entry : TranscriptEntry :=
    { className := "transcript-entry", children := [timestamp, speaker, text] }
  pure { s with transcript := s.transcript ++ [entry] }

/-- The request of `startMeeting`, lines 38-43. -/
def startRequest : Request :=
  { url := "/start_meeting", method := "POST",
    headers := [("Content-Type", "application/json")] }

/-- The request of `endMeeting`, lines 64-69. -/
def endRequest : Request :=
  { url := "/end_meeting", method := "POST",
    headers := [("Content-Type", "application/json")] }

/-- The function `startMeeting()` up to the `fetch` call, lines 35-43: the
new state and the requests issued. -/
def startMeeting (s : State) : State × List Request :=
  if s.isRecording then (s, []) else (s, [startRequest])

/-- The continuation `data => ...` of `startMeeting`, lines 45-54. -/
def startMeetingThen (data : JSVal) (s : State) : Outcome :=
  match data.getProp "status" with
  | .error e => .raised e s
  | .ok status =>
    if status.strictEqStr "success" then
      let s := { s with isRecording := true }
      let s := updateStatus "Recording in progress..." "recording" s
      let s := { s with startDisabled := true }
      .returned { s with endDisabled := false }
    else
      match data.getProp "message" with
      | .error e => .raised e s
      | .ok message =>
        match message.toStr with
        | .error e => .raised e s
        | .ok text => .returned (updateStatus ("Error: " ++ text) "error" s)

/-- The handler `.catch(error => ...)` of `startMeeting`, lines 55-58. -/
def startMeetingCatch (s : State) : State :=
  updateStatus "Error starting meeting" "error" s

/-- The function `endMeeting()` up to the `fetch` call, lines 61-69. -/
def endMeeting (s : State) : State × List Request :=
  if !s.isRecording then (s, []) else (s, [endRequest])

/-- The continuation `data => ...` of `endMeeting`, lines 71-84.  On the
success branch the flag, the status and the buttons are written at lines
73-76 before `displaySummary` can raise at line 79. -/
def endMeetingThen (data : JSVal) (s : State) : Outcome :=
  match data.getProp "status" with
  | .error e => .raised e s
  | .ok status =>
    if status.strictEqStr "success" then
      let s := { s with isRecording := false }
      let s := updateStatus "Meeting ended" "info" s
      let s := { s with startDisabled := false }
      let s := { s with endDisabled := true }
      match data.getProp "summary" with
      | .error e => .raised e s
      | .ok summary =>
        if summary.truthy then
          match displaySummary summary s with
          | .error e => .raised e s
          | .ok s' => .returned s'
        else
          .returned s
    else
      match data.getProp "message" with
      | .error e => .raised e s
      | .ok message =>
        match message.toStr with
        | .error e => .raised e s
        | .ok text => .returned (updateStatus ("Error: " ++ text) "error" s)

/-- The handler `.catch(error => ...)` of `endMeeting`, lines 85-88. -/
def endMeetingCatch (s : State) : State :=
  updateStatus "Error ending meeting" "error" s

/-- The listener of `connect`, lines 19-22. -/
def onConnect (s : State) : State :=
  updateStatus "Connected to server" "info" s

/-- The listener of `disconnect`, lines 24-27. -/
def onDisconnect (s : State) : State :=
  updateStatus "Disconnected from server" "error" s

/-- The listener of `transcript_update`, lines 29-32.  An exception of
`addTranscriptEntry` leaves the listener with the page as it was. -/
def onTranscriptUpdate (data : JSVal) (s : State) : State :=
  match addTranscriptEntry data s with
  | .ok s' => s'
  | .error _ => s

/-- The settled promise chain of `startMeeting` for a parsed body: the
continuation runs, and if it raises, the `.catch` handler runs on the page
the continuation left. -/
def onStartResponse (data : JSVal) (s : State) : State :=
  match startMeetingThen data s with
  | .returned s' => s'
  | .raised _ s' => startMeetingCatch s'

/-- The settled promise chain of `endMeeting` for a parsed body: the
continuation runs, and if it raises, the `.catch` handler runs on the page
the continuation left. -/
def onEndResponse (data : JSVal) (s : State) : State :=
  match endMeetingThen data s with
  | .returned s' => s'
  | .raised _ s' => endMeetingCatch s'

/-- One turn of the event loop: the new page and the requests issued. -/
def step (s : State) : Event → State × List Request
  | .startClick => startMeeting s
  | .endClick => endMeeting s
  | .startResponse data => (onStartResponse data s, [])
  | .endResponse data => (onEndResponse data s, [])
  | .startFailure => (startMeetingCatch s, [])
  | .endFailure => (endMeetingCatch s, [])
  | .connect => (onConnect s, [])
  | .disconnect => (onDisconnect s, [])
  | .transcriptUpdate data => (onTranscriptUpdate data s, [])

/-- A run of the event loop: the final page and all requests issued, in
order. -/
def run (s : State) : List Event → State × List Request
  | [] => (s, [])
  | e :: es =>
    let r := step s e
    let r' := run r.1 es
    (r'.1, r.2 ++ r'.2)

/-- The page once the script has been evaluated, lines 12 and 128-130, in a
host page whose start button is enabled and whose transcript and summary
containers are empty. -/
def initialState : State :=
  let page : State :=
    { isRecording := false, startDisabled := false, endDisabled := false,
      statusText := "", statusClass := "", transcript := [],
      summaryHTML := "", summaryDisplay := "" }
  updateStatus "Ready to start meeting" "info" { page with endDisabled := true }

/-- The page invariant: each button is enabled exactly when its action is
the one the recording flag allows. -/
def Consistent (s : State) : Prop :=
  (s.startDisabled = false ↔ s.isRecording = false) ∧
  (s.endDisabled = false ↔ s.isRecording = true)

/-- A page in the middle of a recording: the initial page after a start
click and a successful response. -/
def recordingState : State :=
  (run initialState [.startClick, .startResponse (.obj [("status", .str "success")])]).1

/-- The response `{status: "error", message: "busy"}`. -/
def busyResponse : JSVal :=
  .obj [("status", .str "error"), ("message", .str "busy")]

/-- The content of a well-formed `transcript_update` payload. -/
structure TranscriptData where
  timestamp : String
  speaker : String
  text : String
  deriving DecidableEq, Repr

/-- The payload `d` carries the three fields of `f` as strings. -/
def HasEntryFields (d : JSVal) (f : TranscriptData) : Prop :=
  d.getProp "timestamp" = .ok (.str f.timestamp) ∧
  d.getProp "speaker" = .ok (.str f.speaker) ∧
  d.getProp "text" = .ok (.str f.text)

/-- The entry the specification describes for a payload: a timestamp
segment, a speaker segment and a text segment, in that order, reading
`[timestamp] speaker: text`. -/
def expectedEntry (f : TranscriptData) : TranscriptEntry :=
  { className := "transcript-entry",
    children :=
      [ { className := "timestamp", textContent := "[" ++ f.timestamp ++ "] " },
        { className := "speaker", textContent := f.speaker ++ ": " },
        { className := "text", textContent := f.text } ] }

/-- The payload object built from three strings. -/
def TranscriptData.toPayload (f : TranscriptData) : JSVal :=
  .obj [("timestamp", .str f.timestamp), ("speaker", .str f.speaker), ("text", .str f.text)]

/-- A page whose summary panel is hidden: the initial page with
`style.display` set to `none`. -/
def hiddenSummaryState : State :=
  { initialState with summaryDisplay := "none" }

/-- The response `{status: "success", summary: ""}`. -/
def emptySummaryResponse : JSVal :=
  .obj [("status", .str "success"), ("summary", .str "")]

/-- The response `{status: "success", summary: {toString: 1}}`, whose summary
cannot be converted to text. -/
def unprintableSummaryResponse : JSVal :=
  .obj [("status", .str "success"),
        ("summary", .obj [("toString", .num { text := "1", nonzero := true })])]

/-- The markup `displaySummary` assigns for the text `t`. -/
def summaryMarkup (t : String) : String :=
  "\n        <h3>Meeting Summary</h3>\n        <div class=\"summary-content\">"
    ++ t ++ "</div>\n    "

/-- The page after lines 73-76. -/
def endedPage (s : State) : State :=
  { s with isRecording := false, statusText := "Meeting ended",
           statusClass := "status info", startDisabled := false, endDisabled := true }

/-! ## Lemmas on values -/

theorem strictEqStr_eq_true_iff (v : JSVal) (lit : String) :
    v.strictEqStr lit = true ↔ v = .str lit := by
  cases v <;> simp [JSVal.strictEqStr]

theorem strictEqStr_eq_false_of_ne {v : JSVal} {lit : String} (h : v ≠ .str lit) :
    v.strictEqStr lit = false := by
  cases hb : v.strictEqStr lit
  · rfl
  · exact absurd ((strictEqStr_eq_true_iff v lit).1 hb) h

/-- A value one property of which can be read is not nullish, so every
property of it can be read. -/
theorem getProp_ok_of_ok {d : JSVal} {k : String} {v : JSVal} (k' : String)
    (h : d.getProp k = .ok v) : ∃ w, d.getProp k' = .ok w := by
  cases d with
  | undefined => simp [JSVal.getProp] at h
  | null => simp [JSVal.getProp] at h
  | obj fields =>
    cases hl : ownProp fields k' with
    | none => exact ⟨.undefined, by simp [JSVal.getProp, hl]⟩
    | some x => exact ⟨x, by simp [JSVal.getProp, hl]⟩
  | bool b => exact ⟨.undefined, rfl⟩
  | num n => exact ⟨.undefined, rfl⟩
  | str t => exact ⟨.undefined, rfl⟩
  | arr items => exact ⟨.undefined, rfl⟩

theorem toStr_str (t : String) : (JSVal.str t).toStr = .ok t := by
  simp [JSVal.toStr]

theorem toStr_undefined : JSVal.undefined.toStr = .ok "undefined" := by
  simp [JSVal.toStr]

/-! ## What each settled promise chain does -/

theorem onStartResponse_success {data : JSVal} (s : State)
    (h : data.getProp "status" = .ok (.str "success")) :
    onStartResponse data s =
      { s with isRecording := true, statusText := "Recording in progress...",
               statusClass := "status recording", startDisabled := true,
               endDisabled := false } := by
  simp [onStartResponse, startMeetingThen, h, JSVal.strictEqStr, updateStatus]

theorem onStartResponse_failure {data st m : JSVal} {t : String} (s : State)
    (hst : data.getProp "status" = .ok st) (hne : st ≠ .str "success")
    (hm : data.getProp "message" = .ok m) (ht : m.toStr = .ok t) :
    onStartResponse data s = updateStatus ("Error: " ++ t) "error" s := by
  simp [onStartResponse, startMeetingThen, hst, hm, ht, strictEqStr_eq_false_of_ne hne]

theorem onStartResponse_failure_raise {data st m : JSVal} {e : JSError} (s : State)
    (hst : data.getProp "status" = .ok st) (hne : st ≠ .str "success")
    (hm : data.getProp "message" = .ok m) (ht : m.toStr = .error e) :
    onStartResponse data s = startMeetingCatch s := by
  simp [onStartResponse, startMeetingThen, hst, hm, ht, strictEqStr_eq_false_of_ne hne]

theorem onStartResponse_throw {data : JSVal} {e : JSError} (s : State)
    (h : data.getProp "status" = .error e) :
    onStartResponse data s = startMeetingCatch s := by
  simp [onStartResponse, startMeetingThen, h]

theorem onEndResponse_success_falsy {data summary : JSVal} (s : State)
    (h : data.getProp "status" = .ok (.str "success"))
    (hs : data.getProp "summary" = .ok summary) (ht : summary.truthy = false) :
    onEndResponse data s = endedPage s := by
  simp [onEndResponse, endMeetingThen, h, hs, ht, JSVal.strictEqStr, updateStatus, endedPage]

theorem onEndResponse_success_shown {data summary : JSVal} {t : String} (s : State)
    (h : data.getProp "status" = .ok (.str "success"))
    (hs : data.getProp "summary" = .ok summary) (ht : summary.truthy = true)
    (hx : summary.toStr = .ok t) :
    onEndResponse data s =
      { endedPage s with summaryHTML := summaryMarkup t, summaryDisplay := "block" } := by
  simp [onEndResponse, endMeetingThen, h, hs, ht, hx, JSVal.strictEqStr, updateStatus,
    endedPage, displaySummary, summaryMarkup]

theorem onEndResponse_success_raise {data summary : JSVal} {e : JSError} (s : State)
    (h : data.getProp "status" = .ok (.str "success"))
    (hs : data.getProp "summary" = .ok summary) (ht : summary.truthy = true)
    (hx : summary.toStr = .error e) :
    onEndResponse data s = endMeetingCatch (endedPage s) := by
  simp [onEndResponse, endMeetingThen, h, hs, ht, hx, JSVal.strictEqStr, updateStatus,
    endedPage, displaySummary]

theorem onEndResponse_failure {data st m : JSVal} {t : String} (s : State)
    (hst : data.getProp "status" = .ok st) (hne : st ≠ .str "success")
    (hm : data.getProp "message" = .ok m) (ht : m.toStr = .ok t) :
    onEndResponse data s = updateStatus ("Error: " ++ t) "error" s := by
  simp [onEndResponse, endMeetingThen, hst, hm, ht, strictEqStr_eq_false_of_ne hne]

theorem onEndResponse_failure_raise {data st m : JSVal} {e : JSError} (s : State)
    (hst : data.getProp "status" = .ok st) (hne : st ≠ .str "success")
    (hm : data.getProp "message" = .ok m) (ht : m.toStr = .error e) :
    onEndResponse data s = endMeetingCatch s := by
  simp [onEndResponse, endMeetingThen, hst, hm, ht, strictEqStr_eq_false_of_ne hne]

theorem onEndResponse_throw {data : JSVal} {e : JSError} (s : State)
    (h : data.getProp "status" = .error e) :
    onEndResponse data s = endMeetingCatch s := by
  simp [onEndResponse, endMeetingThen, h]

/-- A failed response, whatever its shape, ends in the `error` class with the
flag and the buttons as they were. -/
theorem onStartResponse_not_success {data : JSVal} (s : State)
    (h : data.getProp "status" ≠ .ok (.str "success")) :
    (onStartResponse data s).statusClass = "status error" ∧
    (onStartResponse data s).isRecording = s.isRecording ∧
    (onStartResponse data s).startDisabled = s.startDisabled ∧
    (onStartResponse data s).endDisabled = s.endDisabled := by
  cases hst : data.getProp "status" with
  | error e => rw [onStartResponse_throw s hst]; exact ⟨rfl, rfl, rfl, rfl⟩
  | ok st =>
    have hne : st ≠ .str "success" := fun hc => h (by rw [hst, hc])
    obtain ⟨m, hm⟩ := getProp_ok_of_ok "message" hst
    cases ht : m.toStr with
    | error e => rw [onStartResponse_failure_raise s hst hne hm ht]; exact ⟨rfl, rfl, rfl, rfl⟩
    | ok t => rw [onStartResponse_failure s hst hne hm ht]; exact ⟨rfl, rfl, rfl, rfl⟩

theorem onEndResponse_not_success {data : JSVal} (s : State)
    (h : data.getProp "status" ≠ .ok (.str "success")) :
    (onEndResponse data s).statusClass = "status error" ∧
    (onEndResponse data s).isRecording = s.isRecording ∧
    (onEndResponse data s).startDisabled = s.startDisabled ∧
    (onEndResponse data s).endDisabled = s.endDisabled := by
  cases hst : data.getProp "status" with
  | error e => rw [onEndResponse_throw s hst]; exact ⟨rfl, rfl, rfl, rfl⟩
  | ok st =>
    have hne : st ≠ .str "success" := fun hc => h (by rw [hst, hc])
    obtain ⟨m, hm⟩ := getProp_ok_of_ok "message" hst
    cases ht : m.toStr with
    | error e => rw [onEndResponse_failure_raise s hst hne hm ht]; exact ⟨rfl, rfl, rfl, rfl⟩
    | ok t => rw [onEndResponse_failure s hst hne hm ht]; exact ⟨rfl, rfl, rfl, rfl⟩

/-- A successful end response, whatever its summary: the flag, the buttons
and the transcript. -/
theorem onEndResponse_success_flags {data : JSVal} (s : State)
    (h : data.getProp "status" = .ok (.str "success")) :
    (onEndResponse data s).isRecording = false ∧
    (onEndResponse data s).startDisabled = false ∧
    (onEndResponse data s).endDisabled = true ∧
    (onEndResponse data s).transcript = s.transcript := by
  obtain ⟨sm, hs⟩ := getProp_ok_of_ok "summary" h
  cases ht : sm.truthy with
  | false => rw [onEndResponse_success_falsy s h hs ht]; exact ⟨rfl, rfl, rfl, rfl⟩
  | true =>
    cases hx : sm.toStr with
    | error e => rw [onEndResponse_success_raise s h hs ht hx]; exact ⟨rfl, rfl, rfl, rfl⟩
    | ok t => rw [onEndResponse_success_shown s h hs ht hx]; exact ⟨rfl, rfl, rfl, rfl⟩

/-- An entry that was added is the only change to the page. -/
theorem addTranscriptEntry_ok {data : JSVal} {s s' : State}
    (h : addTranscriptEntry data s = .ok s') :
    ∃ entry, s' = { s with transcript := s.transcript ++ [entry] } := by
  unfold addTranscriptEntry at h
  cases h1 : data.getProp "timestamp" with
  | error e => simp [h1, bind, Except.bind] at h
  | ok ts =>
  cases h2 : ts.toStr with
  | error e => simp [h1, h2, bind, Except.bind] at h
  | ok tsText =>
  cases h3 : data.getProp "speaker" with
  | error e => simp [h1, h2, h3, bind, Except.bind] at h
  | ok sp =>
  cases h4 : sp.toStr with
  | error e => simp [h1, h2, h3, h4, bind, Except.bind] at h
  | ok spText =>
  cases h5 : data.getProp "text" with
  | error e => simp [h1, h2, h3, h4, h5, bind, Except.bind] at h
  | ok tx =>
  cases h6 : tx.toTextContent with
  | error e => simp [h1, h2, h3, h4, h5, h6, bind, Except.bind] at h
  | ok txText =>
    simp [h1, h2, h3, h4, h5, h6, bind, Except.bind, pure, Except.pure] at h
    exact ⟨_, h.symm⟩

/-! ## The invariant -/

theorem consistent_initialState : Consistent initialState := by
  simp [Consistent, initialState, updateStatus]

theorem consistent_of_flags {s s' : State} (h : Consistent s)
    (hr : s'.isRecording = s.isRecording) (hs : s'.startDisabled = s.startDisabled)
    (he : s'.endDisabled = s.endDisabled) : Consistent s' := by
  unfold Consistent at *
  rw [hr, hs, he]; exact h

theorem consistent_onTranscriptUpdate {s : State} (data : JSVal) (h : Consistent s) :
    Consistent (onTranscriptUpdate data s) := by
  unfold onTranscriptUpdate
  cases hadd : addTranscriptEntry data s with
  | error e => exact h
  | ok s' =>
    obtain ⟨entry, rfl⟩ := addTranscriptEntry_ok hadd
    exact h

theorem consistent_step {s : State} (e : Event) (h : Consistent s) :
    Consistent (step s e).1 := by
  cases e with
  | startClick => simp only [step, startMeeting]; split <;> exact h
  | endClick => simp only [step, endMeeting]; split <;> exact h
  | startResponse data =>
    simp only [step]
    by_cases hs : data.getProp "status" = .ok (.str "success")
    · rw [onStartResponse_success s hs]; simp [Consistent]
    · obtain ⟨_, h1, h2, h3⟩ := onStartResponse_not_success s hs
      exact consistent_of_flags h h1 h2 h3
  | endResponse data =>
    simp only [step]
    by_cases hs : data.getProp "status" = .ok (.str "success")
    · obtain ⟨h1, h2, h3, _⟩ := onEndResponse_success_flags s hs
      simp [Consistent, h1, h2, h3]
    · obtain ⟨_, h1, h2, h3⟩ := onEndResponse_not_success s hs
      exact consistent_of_flags h h1 h2 h3
  | startFailure => exact h
  | endFailure => exact h
  | connect => exact h
  | disconnect => exact h
  | transcriptUpdate data => exact consistent_onTranscriptUpdate data h

theorem consistent_run (es : List Event) : ∀ {s : State}, Consistent s →
    Consistent (run s es).1 := by
  induction es with
  | nil => intro s h; exact h
  | cons e es ih => intro s h; exact ih (consistent_step e h)

/-! ## The transcript list -/

theorem addTranscriptEntry_of_fields {d : JSVal} {f : TranscriptData} (s : State)
    (h : HasEntryFields d f) :
    addTranscriptEntry d s = .ok { s with transcript := s.transcript ++ [expectedEntry f] } := by
  obtain ⟨h1, h2, h3⟩ := h
  simp [addTranscriptEntry, h1, h2, h3, bind, Except.bind, pure, Except.pure, expectedEntry,
    JSVal.toStr, JSVal.toTextContent]

theorem run_transcriptUpdates {ds : List JSVal} {fs : List TranscriptData}
    (h : List.Forall₂ HasEntryFields ds fs) : ∀ s : State,
    run s (ds.map Event.transcriptUpdate) =
      ({ s with transcript := s.transcript ++ fs.map expectedEntry }, []) := by
  induction h with
  | nil => intro s; simp [run]
  | cons hd _ ih =>
    intro s
    simp [run, step, onTranscriptUpdate, addTranscriptEntry_of_fields s hd, ih]

theorem expectedEntry_textContent (f : TranscriptData) :
    (expectedEntry f).textContent
      = "[" ++ f.timestamp ++ "] " ++ f.speaker ++ ": " ++ f.text := by
  simp [expectedEntry, TranscriptEntry.textContent, String.join, String.append_assoc]

/-! ## The claims -/

/-- C1: after every finite sequence of events (start click, end click, start
response, end response, transport failure, connect, disconnect,
transcript update) applied to the initial page, the start button is enabled
if and only if `isRecording` is false and the end button is enabled if and
only if `isRecording` is true. -/
theorem buttons_consistent_after_every_run (es : List Event) :
    ((run initialState es).1.startDisabled = false ↔
      (run initialState es).1.isRecording = false) ∧
    ((run initialState es).1.endDisabled = false ↔
      (run initialState es).1.isRecording = true) :=
  consistent_run es consistent_initialState

/-- C2: from every page, a start response whose `status` is `"success"`
leaves `isRecording` true, the start button disabled, the end button enabled,
and the status 'Recording in progress...' with class 'status recording'. -/
theorem start_success_response (s : State) (data : JSVal)
    (h : data.getProp "status" = .ok (.str "success")) :
    (step s (.startResponse data)).1.isRecording = true ∧
    (step s (.startResponse data)).1.startDisabled = true ∧
    (step s (.startResponse data)).1.endDisabled = false ∧
    (step s (.startResponse data)).1.statusText = "Recording in progress..." ∧
    (step s (.startResponse data)).1.statusClass = "status recording" := by
  simp only [step]
  rw [onStartResponse_success s h]
  exact ⟨rfl, rfl, rfl, rfl, rfl⟩

theorem start_success_response_witness :
    (step initialState (.startResponse (.obj [("status", .str "success")]))).1.isRecording
        = true ∧
    (step initialState (.startResponse (.obj [("status", .str "success")]))).1.startDisabled
        = true ∧
    (step initialState (.startResponse (.obj [("status", .str "success")]))).1.endDisabled
        = false ∧
    (step initialState (.startResponse (.obj [("status", .str "success")]))).1.statusText
        = "Recording in progress..." ∧
    (step initialState (.startResponse (.obj [("status", .str "success")]))).1.statusClass
        = "status recording" :=
  start_success_response initialState (.obj [("status", .str "success")]) rfl

/-- C3: from every page, a response to a start or an end request whose
`status` is not `"success"` and whose `message` is the string `m` sets the
status text to `"Error: "` followed by `m`, with class 'status error', and
leaves `isRecording` and both buttons as they were; for
`{status: "error", message: "busy"}` after a start click on the initial page
the flag is false and the status text is `"Error: busy"`. -/
theorem failure_response_shows_message (s : State) (data st : JSVal) (m : String)
    (hst : data.getProp "status" = .ok st) (hne : st ≠ .str "success")
    (hm : data.getProp "message" = .ok (.str m)) :
    (∀ e : Event, e = .startResponse data ∨ e = .endResponse data →
      (step s e).1.statusText = "Error: " ++ m ∧
      (step s e).1.statusClass = "status error" ∧
      (step s e).1.isRecording = s.isRecording ∧
      (step s e).1.startDisabled = s.startDisabled ∧
      (step s e).1.endDisabled = s.endDisabled) ∧
    (run initialState [.startClick, .startResponse busyResponse]).1.isRecording = false ∧
    (run initialState [.startClick, .startResponse busyResponse]).1.statusText
      = "Error: busy" := by
  refine ⟨?_, by decide, by decide⟩
  rintro e (rfl | rfl)
  · simp only [step]
    rw [onStartResponse_failure s hst hne hm (toStr_str m)]
    exact ⟨rfl, rfl, rfl, rfl, rfl⟩
  · simp only [step]
    rw [onEndResponse_failure s hst hne hm (toStr_str m)]
    exact ⟨rfl, rfl, rfl, rfl, rfl⟩

theorem failure_response_shows_message_witness :
    (step recordingState (.endResponse busyResponse)).1.statusText = "Error: " ++ "busy" ∧
    (step recordingState (.endResponse busyResponse)).1.statusClass = "status error" ∧
    (step recordingState (.endResponse busyResponse)).1.isRecording
      = recordingState.isRecording ∧
    (step recordingState (.endResponse busyResponse)).1.startDisabled
      = recordingState.startDisabled ∧
    (step recordingState (.endResponse busyResponse)).1.endDisabled
      = recordingState.endDisabled :=
  (failure_response_shows_message recordingState busyResponse (.str "error") "busy"
    rfl (by simp) rfl).1 _ (Or.inr rfl)

/-- C6: with `isRecording` true a start click issues no request and leaves
the whole page unchanged, and with `isRecording` false so does an end click;
a start click with the flag false issues exactly one POST `/start_meeting`,
and an end click with the flag true exactly one POST `/end_meeting`. -/
theorem click_guards (s : State) :
    (s.isRecording = true → step s .startClick = (s, [])) ∧
    (s.isRecording = false → step s .endClick = (s, [])) ∧
    (s.isRecording = false → step s .startClick = (s, [startRequest])) ∧
    (s.isRecording = true → step s .endClick = (s, [endRequest])) ∧
    (startRequest.method = "POST" ∧ startRequest.url = "/start_meeting") ∧
    (endRequest.method = "POST" ∧ endRequest.url = "/end_meeting") := by
  refine ⟨?_, ?_, ?_, ?_, ⟨rfl, rfl⟩, ⟨rfl, rfl⟩⟩ <;> intro h <;>
    simp [step, startMeeting, endMeeting, h]

theorem click_guards_witness :
    step recordingState .startClick = (recordingState, []) ∧
    step initialState .endClick = (initialState, []) ∧
    step initialState .startClick = (initialState, [startRequest]) ∧
    step recordingState .endClick = (recordingState, [endRequest]) :=
  ⟨(click_guards recordingState).1 (by decide),
   (click_guards initialState).2.1 (by decide),
   (click_guards initialState).2.2.1 (by decide),
   (click_guards recordingState).2.2.2.1 (by decide)⟩

/-- C7, as stated, fails: the end response
`{status: "success", summary: {toString: 1}}` has the status `"success"`,
yet after it the status is 'Error ending meeting' with class 'status error':
the summary is truthy, its conversion to text in `displaySummary` raises
after lines 73-76, and the `.catch` handler overwrites the status. -/
theorem end_success_status_lost_when_summary_raises :
    unprintableSummaryResponse.getProp "status" = .ok (.str "success") ∧
    (step recordingState (.endResponse unprintableSummaryResponse)).1.statusText
      = "Error ending meeting" ∧
    (step recordingState (.endResponse unprintableSummaryResponse)).1.statusClass
      = "status error" ∧
    (step recordingState (.endResponse unprintableSummaryResponse)).1.statusText
      ≠ "Meeting ended" := by
  refine ⟨rfl, by decide, by decide, by decide⟩

/-- C7, amended: from every page, an end response whose `status` is
`"success"` leaves `isRecording` false, the start button enabled, the end
button disabled and the transcript list unchanged; the status is
'Meeting ended' with class 'status info' when the summary is absent, falsy or
can be converted to text, as every string can, and 'Error ending meeting'
with class 'status error' when the summary is truthy and its conversion to
text raises. -/
theorem end_success_flags_and_status (s : State) (data summary : JSVal)
    (h : data.getProp "status" = .ok (.str "success"))
    (hs : data.getProp "summary" = .ok summary) :
    (step s (.endResponse data)).1.isRecording = false ∧
    (step s (.endResponse data)).1.startDisabled = false ∧
    (step s (.endResponse data)).1.endDisabled = true ∧
    (step s (.endResponse data)).1.transcript = s.transcript ∧
    (summary.truthy = false ∨ (∃ t, summary.toStr = .ok t) →
      (step s (.endResponse data)).1.statusText = "Meeting ended" ∧
      (step s (.endResponse data)).1.statusClass = "status info") ∧
    (summary.truthy = true ∧ (∃ e, summary.toStr = .error e) →
      (step s (.endResponse data)).1.statusText = "Error ending meeting" ∧
      (step s (.endResponse data)).1.statusClass = "status error") := by
  obtain ⟨h1, h2, h3, h4⟩ := onEndResponse_success_flags s h
  refine ⟨h1, h2, h3, h4, ?_, ?_⟩
  · intro hc
    simp only [step]
    cases ht : summary.truthy with
    | false => rw [onEndResponse_success_falsy s h hs ht]; exact ⟨rfl, rfl⟩
    | true =>
      rcases hc with hf | ⟨t, hx⟩
      · rw [ht] at hf; cases hf
      · rw [onEndResponse_success_shown s h hs ht hx]; exact ⟨rfl, rfl⟩
  · rintro ⟨ht, e, hx⟩
    simp only [step]
    rw [onEndResponse_success_raise s h hs ht hx]
    exact ⟨rfl, rfl⟩

theorem end_success_flags_and_status_witness :
    ((step recordingState (.endResponse
        (.obj [("status", .str "success"), ("summary", .str "<p>done</p>")]))).1.isRecording
      = false ∧
     (step recordingState (.endResponse
        (.obj [("status", .str "success"), ("summary", .str "<p>done</p>")]))).1.statusText
      = "Meeting ended") ∧
    ((step recordingState (.endResponse (.obj [("status", .str "success")]))).1.statusClass
      = "status info") ∧
    ((step recordingState (.endResponse unprintableSummaryResponse)).1.endDisabled = true ∧
     (step recordingState (.endResponse unprintableSummaryResponse)).1.statusClass
      = "status error") :=
  ⟨⟨(end_success_flags_and_status recordingState
        (.obj [("status", .str "success"), ("summary", .str "<p>done</p>")])
        (.str "<p>done</p>") rfl rfl).1,
    ((end_success_flags_and_status recordingState
        (.obj [("status", .str "success"), ("summary", .str "<p>done</p>")])
        (.str "<p>done</p>") rfl rfl).2.2.2.2.1 (Or.inr ⟨_, rfl⟩)).1⟩,
   ((end_success_flags_and_status recordingState (.obj [("status", .str "success")])
        .undefined rfl rfl).2.2.2.2.1 (Or.inl rfl)).2,
   ⟨(end_success_flags_and_status recordingState unprintableSummaryResponse
        (.obj [("toString", .num { text := "1", nonzero := true })]) rfl rfl).2.2.1,
    ((end_success_flags_and_status recordingState unprintableSummaryResponse
        (.obj [("toString", .num { text := "1", nonzero := true })]) rfl rfl).2.2.2.2.2
        ⟨rfl, _, rfl⟩).2⟩⟩

/-- C4: for every sequence of `transcript_update` events whose payloads
carry string `timestamp`, `speaker` and `text`, processed from a page with an
empty transcript list, the list afterwards has exactly one entry per event,
the i-th built from the i-th event, each made of a timestamp, a speaker and a
text segment in that order and reading `[timestamp] speaker: text`; this
holds whatever `isRecording` is, which the events leave as it was. -/
theorem transcript_entries_in_arrival_order (s : State) (ds : List JSVal)
    (fs : List TranscriptData) (hs : s.transcript = [])
    (h : List.Forall₂ HasEntryFields ds fs) :
    (run s (ds.map Event.transcriptUpdate)).1.transcript = fs.map expectedEntry ∧
    (run s (ds.map Event.transcriptUpdate)).1.transcript.length = ds.length ∧
    (run s (ds.map Event.transcriptUpdate)).1.transcript.map TranscriptEntry.textContent
      = fs.map (fun f => "[" ++ f.timestamp ++ "] " ++ f.speaker ++ ": " ++ f.text) ∧
    (∀ e ∈ (run s (ds.map Event.transcriptUpdate)).1.transcript,
      e.children.map Span.className = ["timestamp", "speaker", "text"]) ∧
    (run s (ds.map Event.transcriptUpdate)).1.isRecording = s.isRecording := by
  rw [run_transcriptUpdates h s]
  have ht : ({ s with transcript := s.transcript ++ fs.map expectedEntry } : State).transcript
      = fs.map expectedEntry := by simp [hs]
  refine ⟨ht, ?_, ?_, ?_, rfl⟩
  · rw [ht, List.length_map, h.length_eq]
  · rw [ht, List.map_map]
    exact List.map_congr_left (fun f _ => expectedEntry_textContent f)
  · intro e he
    rw [ht] at he
    obtain ⟨f, _, rfl⟩ := List.mem_map.1 he
    rfl

theorem transcript_entries_in_arrival_order_witness :
    (run recordingState
      ([TranscriptData.toPayload ⟨"10:00", "Ann", "hello"⟩,
        TranscriptData.toPayload ⟨"10:01", "Bob", "hi"⟩].map
          Event.transcriptUpdate)).1.transcript.map TranscriptEntry.textContent
      = ["[10:00] Ann: hello", "[10:01] Bob: hi"] :=
  (transcript_entries_in_arrival_order recordingState
    [TranscriptData.toPayload ⟨"10:00", "Ann", "hello"⟩,
     TranscriptData.toPayload ⟨"10:01", "Bob", "hi"⟩]
    [⟨"10:00", "Ann", "hello"⟩, ⟨"10:01", "Bob", "hi"⟩] rfl
    (.cons ⟨rfl, rfl, rfl⟩ (.cons ⟨rfl, rfl, rfl⟩ .nil))).2.2.1

/-- C5, as stated, fails: the successful end response
`{status: "success", summary: ""}` has a summary field, yet on a page whose
summary panel is hidden the panel stays hidden and its content stays as it
was. -/
theorem empty_summary_not_displayed :
    emptySummaryResponse.getProp "status" = .ok (.str "success") ∧
    emptySummaryResponse.getProp "summary" = .ok (.str "") ∧
    (step hiddenSummaryState (.endResponse emptySummaryResponse)).1.summaryDisplay = "none" ∧
    (step hiddenSummaryState (.endResponse emptySummaryResponse)).1.summaryHTML
      ≠ summaryMarkup "" := by
  refine ⟨rfl, rfl, by decide, by decide⟩

/-- C5, amended: for every successful end response, if its `summary` is a
non-empty string `t` the summary panel ends with `display` `block` and with
the 'Meeting Summary' heading followed by the `summary-content` block holding
`t` as its content, whatever it held before; if the response has no summary
field, or the empty string as summary, the panel's display and content are
as they were. -/
theorem summary_displayed_when_truthy (s : State) (data : JSVal)
    (h : data.getProp "status" = .ok (.str "success")) :
    (∀ t : String, data.getProp "summary" = .ok (.str t) → t ≠ "" →
      (step s (.endResponse data)).1.summaryDisplay = "block" ∧
      (step s (.endResponse data)).1.summaryHTML = summaryMarkup t) ∧
    (data.getProp "summary" = .ok .undefined ∨ data.getProp "summary" = .ok (.str "") →
      (step s (.endResponse data)).1.summaryDisplay = s.summaryDisplay ∧
      (step s (.endResponse data)).1.summaryHTML = s.summaryHTML) := by
  refine ⟨?_, ?_⟩
  · intro t ht hne
    simp only [step]
    rw [onEndResponse_success_shown s h ht (by simp [JSVal.truthy, hne]) (toStr_str t)]
    exact ⟨rfl, rfl⟩
  · rintro (hu | he)
    · simp only [step]
      rw [onEndResponse_success_falsy s h hu rfl]
      exact ⟨rfl, rfl⟩
    · simp only [step]
      rw [onEndResponse_success_falsy s h he rfl]
      exact ⟨rfl, rfl⟩

theorem summary_displayed_when_truthy_witness :
    ((step hiddenSummaryState (.endResponse
        (.obj [("status", .str "success"), ("summary", .str "<p>done</p>")]))).1.summaryDisplay
      = "block" ∧
     (step hiddenSummaryState (.endResponse
        (.obj [("status", .str "success"), ("summary", .str "<p>done</p>")]))).1.summaryHTML
      = summaryMarkup "<p>done</p>") ∧
    ((step hiddenSummaryState (.endResponse emptySummaryResponse)).1.summaryDisplay
      = hiddenSummaryState.summaryDisplay ∧
     (step hiddenSummaryState (.endResponse emptySummaryResponse)).1.summaryHTML
      = hiddenSummaryState.summaryHTML) :=
  ⟨(summary_displayed_when_truthy hiddenSummaryState
      (.obj [("status", .str "success"), ("summary", .str "<p>done</p>")]) rfl).1
      "<p>done</p>" rfl (by decide),
   (summary_displayed_when_truthy hiddenSummaryState emptySummaryResponse rfl).2 (Or.inr rfl)⟩

/-- C8: from every page, a non-success response to a start or an end
request, a transport failure of a start or an end request, and a channel
disconnect each leave the status class 'status error' and `isRecording` as it
was; a disconnect sets the status text 'Disconnected from server' whatever
the flag, and a transport failure sets 'Error starting meeting' or
'Error ending meeting'. -/
theorem errors_set_error_status_and_keep_flag (s : State) (data : JSVal)
    (h : data.getProp "status" ≠ .ok (.str "success")) :
    ((step s (.startResponse data)).1.statusClass = "status error" ∧
      (step s (.startResponse data)).1.isRecording = s.isRecording) ∧
    ((step s (.endResponse data)).1.statusClass = "status error" ∧
      (step s (.endResponse data)).1.isRecording = s.isRecording) ∧
    ((step s .startFailure).1.statusText = "Error starting meeting" ∧
      (step s .startFailure).1.statusClass = "status error" ∧
      (step s .startFailure).1.isRecording = s.isRecording) ∧
    ((step s .endFailure).1.statusText = "Error ending meeting" ∧
      (step s .endFailure).1.statusClass = "status error" ∧
      (step s .endFailure).1.isRecording = s.isRecording) ∧
    ((step s .disconnect).1.statusText = "Disconnected from server" ∧
      (step s .disconnect).1.statusClass = "status error" ∧
      (step s .disconnect).1.isRecording = s.isRecording) := by
  refine ⟨?_, ?_, ⟨rfl, rfl, rfl⟩, ⟨rfl, rfl, rfl⟩, ⟨rfl, rfl, rfl⟩⟩
  · exact ⟨(onStartResponse_not_success s h).1, (onStartResponse_not_success s h).2.1⟩
  · exact ⟨(onEndResponse_not_success s h).1, (onEndResponse_not_success s h).2.1⟩

theorem errors_set_error_status_and_keep_flag_witness :
    (step recordingState (.endResponse busyResponse)).1.statusClass = "status error" ∧
    (step recordingState (.endResponse busyResponse)).1.isRecording
      = recordingState.isRecording :=
  (errors_set_error_status_and_keep_flag recordingState busyResponse
    (by simp [busyResponse, JSVal.getProp, ownProp, List.lookup])).2.1

/-- C9: nothing guards a click during a pending request.  Two start clicks
on the initial page, with no response processed between them, issue two POST
`/start_meeting` requests, the flag being false until a success response is
processed; from every page two start clicks with the flag false issue two
such requests, and two end clicks with the flag true issue two POST
`/end_meeting` requests. -/
theorem double_click_issues_two_requests (s : State) :
    run initialState [.startClick, .startClick]
      = (initialState, [startRequest, startRequest]) ∧
    initialState.isRecording = false ∧
    (s.isRecording = false →
      run s [.startClick, .startClick] = (s, [startRequest, startRequest])) ∧
    (s.isRecording = true →
      run s [.endClick, .endClick] = (s, [endRequest, endRequest])) := by
  refine ⟨by decide, rfl, ?_, ?_⟩ <;> intro h <;>
    simp [run, step, startMeeting, endMeeting, h]

theorem double_click_issues_two_requests_witness :
    recordingState.isRecording = true ∧
    run recordingState [.endClick, .endClick]
      = (recordingState, [endRequest, endRequest]) :=
  ⟨by decide, (double_click_issues_two_requests recordingState).2.2.2 (by decide)⟩

/-- C10: from every page, a response to a start or an end request whose
`status` is not `"success"` and which has no `message` field sets the status
text to `"Error: undefined"` with class 'status error' and leaves
`isRecording` and both buttons as they were; a response with no `status`
field is handled as a failure: error class, flag and buttons as they were. -/
theorem failure_response_without_message (s : State) (data st : JSVal)
    (hst : data.getProp "status" = .ok st) (hne : st ≠ .str "success")
    (hm : data.getProp "message" = .ok .undefined) :
    (∀ e : Event, e = .startResponse data ∨ e = .endResponse data →
      (step s e).1.statusText = "Error: undefined" ∧
      (step s e).1.statusClass = "status error" ∧
      (step s e).1.isRecording = s.isRecording ∧
      (step s e).1.startDisabled = s.startDisabled ∧
      (step s e).1.endDisabled = s.endDisabled) ∧
    (∀ (d : JSVal) (e : Event), d.getProp "status" = .ok .undefined →
      e = .startResponse d ∨ e = .endResponse d →
      (step s e).1.statusClass = "status error" ∧
      (step s e).1.isRecording = s.isRecording ∧
      (step s e).1.startDisabled = s.startDisabled ∧
      (step s e).1.endDisabled = s.endDisabled) := by
  refine ⟨?_, ?_⟩
  · rintro e (rfl | rfl)
    · simp only [step]
      rw [onStartResponse_failure s hst hne hm toStr_undefined]
      exact ⟨rfl, rfl, rfl, rfl, rfl⟩
    · simp only [step]
      rw [onEndResponse_failure s hst hne hm toStr_undefined]
      exact ⟨rfl, rfl, rfl, rfl, rfl⟩
  · rintro d e hd (rfl | rfl)
    · exact onStartResponse_not_success s (by rw [hd]; simp)
    · exact onEndResponse_not_success s (by rw [hd]; simp)

theorem failure_response_without_message_witness :
    (step initialState (.startResponse (.obj [("status", .str "error")]))).1.statusText
      = "Error: undefined" ∧
    (step recordingState (.endResponse (.obj []))).1.statusClass = "status error" ∧
    (step recordingState (.endResponse (.obj []))).1.isRecording = true :=
  ⟨((failure_response_without_message initialState (.obj [("status", .str "error")])
      (.str "error") rfl (by simp) rfl).1 _ (Or.inl rfl)).1,
   ((failure_response_without_message recordingState (.obj [("status", .str "error")])
      (.str "error") rfl (by simp) rfl).2 (.obj []) _ rfl (Or.inr rfl)).1,
   ((failure_response_without_message recordingState (.obj [("status", .str "error")])
      (.str "error") rfl (by simp) rfl).2 (.obj []) _ rfl (Or.inr rfl)).2.1⟩

end MeetingAssistant
